import Mathlib

/-!
Verification model of the online-compiler execution-dispatch subsystem
(`runner/executor.go`, the batch runner, the submit handler and the
configuration loader).  Go functions are embedded as pure Lean functions;
external effects (filesystem, the container runtime, channels) are made
explicit through oracle records that fix the outcome of each fallible
step, and trace records that log the externally visible events
(directory creation/removal, kill invocations, stats emissions).
-/

namespace CompilerBackend

/-! ## String helpers mirroring Go's `strings` package -/

/-- `startsWithL pat s` is true when `pat` is a prefix of `s`
(list-of-char form of Go `strings.HasPrefix`). -/
def startsWithL : List Char → List Char → Bool
  | [], _ => true
  | _ :: _, [] => false
  | p :: ps, c :: cs => p == c && startsWithL ps cs

/-- `containsSub s pat` is true when `pat` occurs as a contiguous
substring of `s` (list-of-char form of Go `strings.Contains`). -/
def containsSub : List Char → List Char → Bool
  | [], pat => startsWithL pat []
  | s@(_ :: cs), pat => startsWithL pat s || containsSub cs pat

/-- Go `strings.Contains`. -/
def goContains (s sub : String) : Bool :=
  containsSub s.toList sub.toList

/-- Go `strings.HasPrefix`. -/
def goHasPrefix (s pre : String) : Bool :=
  startsWithL pre.toList s.toList

/-- Go `unicode.IsSpace` restricted to the Latin-1 range (the higher
Unicode space ranges are irrelevant to the inputs considered here):
space, tab, newline, vertical tab, form feed, carriage return,
next line (U+0085) and no-break space (U+00A0). -/
def goIsSpace (c : Char) : Bool :=
  c == ' ' || c == '\t' || c == '\n' || c == '\x0B' ||
  c == '\x0C' || c == '\r' || c == '\x85' || c == '\xA0'

/-- Drop characters satisfying `p` from the front of a list. -/
def trimLeftList (p : Char → Bool) (l : List Char) : List Char :=
  l.dropWhile p

/-- Drop characters satisfying `p` from the back of a list. -/
def trimRightList (p : Char → Bool) (l : List Char) : List Char :=
  (l.reverse.dropWhile p).reverse

/-- Go `strings.TrimSpace`: removes leading AND trailing whitespace. -/
def goTrimSpace (s : String) : String :=
  String.mk (trimRightList goIsSpace (trimLeftList goIsSpace s.toList))

/-- Go `strings.TrimRight s cutset`: removes trailing characters that
belong to `cutset`. -/
def goTrimRightSet (s : String) (cutset : List Char) : String :=
  String.mk (trimRightList (fun c => cutset.contains c) s.toList)

/-! ## Language registry (`getLanguageSpec`, executor.go lines 106-123) -/

/-- `getLanguageSpec` from `runner/executor.go`: maps a language tag to
the source filename and the single-input shell run command; unknown
tags yield `("", "")`. -/
def getLanguageSpec (language : String) : String × String :=
  match language with
  | "python" => ("main.py", "echo \"$INPUT\" | python3 /code/main.py")
  | "java" => ("Main.java", "javac /code/Main.java && echo \"$INPUT\" | java -cp /code Main")
  | "cpp" => ("main.cpp", "g++ /code/main.cpp -o /code/a.out && echo \"$INPUT\" | /code/a.out")
  | "c" => ("main.c", "gcc /code/main.c -o /code/a.out && echo \"$INPUT\" | /code/a.out")
  | "javascript" => ("main.js", "echo \"$INPUT\" | node /code/main.js")
  | "go" => ("main.go", "echo \"$INPUT\" | go run /code/main.go")
  | _ => ("", "")

/-- The languages compiled by the batch driver script
(`createBatchRunnerScript` emits a compile block exactly for these). -/
def isCompiledLang (language : String) : Bool :=
  language == "java" || language == "cpp" || language == "c"

/-! ## Single-input execution (`executeCodeWithContext`, executor.go 125-239) -/

/-- Outcome of the `docker run` subprocess raced against the context:
either the command completed (with success flag and combined output)
before the deadline, or the context deadline expired first. -/
inductive RunOutcome
  | completed (ok : Bool) (output : String)
  | timedOut
  deriving DecidableEq

/-- Oracle fixing the outcome of each fallible external step of
`executeCodeWithContext`, in the order the code performs them. -/
structure ExecOracle where
  dockerAvailable : Bool
  absPathOk : Bool
  mkdirOk : Bool
  writeOk : Bool
  run : RunOutcome
  deriving DecidableEq

/-- Externally visible trace of one `executeCodeWithContext` call.
`wsCreated`: `os.MkdirAll(execDir)` succeeded at some point;
`removeInvoked`: the deferred `os.RemoveAll(execDir)` ran;
`wsExistsAfter`: the workspace directory exists when the call returns;
`statsCount`: number of `ExecutionStats` records sent to `statsChan`;
`killInvoked`: name passed to an out-of-band `docker kill`, if any. -/
structure ExecTrace where
  wsCreated : Bool
  removeInvoked : Bool
  wsExistsAfter : Bool
  statsCount : Nat
  killInvoked : Option String
  output : String
  error : Option String
  deriving DecidableEq

/-- The sentinel output returned on context expiry
(executor.go line 237). -/
def sentinelTimeoutOutput : String :=
  "Execution timed out. Your code may contain an infinite loop or is taking too long to execute."

/-- Shallow embedding of `executeCodeWithContext` (executor.go 125-239).
Control flow, in source order: docker availability probe; absolute-path
resolution; `MkdirAll` of `sandbox/<jobId>`; `defer os.RemoveAll`
(hence every later return has `removeInvoked := true` and
`wsExistsAfter := false`); language lookup (NO unsupported check here —
an empty filename makes the subsequent `os.WriteFile` target the
directory itself, which always fails); code-file write; `docker run`
raced against the context, with `docker kill <name>` plus the sentinel
output on expiry.  Every path emits exactly one stats record. -/
def executeCodeWithContext (language : String) (jobId : String)
    (o : ExecOracle) : ExecTrace :=
  if o.dockerAvailable = false then
    { wsCreated := false, removeInvoked := false, wsExistsAfter := false,
      statsCount := 1, killInvoked := none, output := "",
      error := some "Docker not available" }
  else if o.absPathOk = false then
    { wsCreated := false, removeInvoked := false, wsExistsAfter := false,
      statsCount := 1, killInvoked := none, output := "",
      error := some "failed to get absolute path" }
  else if o.mkdirOk = false then
    { wsCreated := false, removeInvoked := false, wsExistsAfter := false,
      statsCount := 1, killInvoked := none, output := "",
      error := some "failed to create execution directory" }
  else
    let codeFile := (getLanguageSpec language).1
    if codeFile = "" ∨ o.writeOk = false then
      { wsCreated := true, removeInvoked := true, wsExistsAfter := false,
        statsCount := 1, killInvoked := none, output := "",
        error := some "failed to write code file" }
    else
      match o.run with
      | RunOutcome.completed ok out =>
          if ok then
            { wsCreated := true, removeInvoked := true, wsExistsAfter := false,
              statsCount := 1, killInvoked := none, output := out,
              error := none }
          else
            { wsCreated := true, removeInvoked := true, wsExistsAfter := false,
              statsCount := 1, killInvoked := none, output := out,
              error := some "execution failed" }
      | RunOutcome.timedOut =>
          { wsCreated := true, removeInvoked := true, wsExistsAfter := false,
            statsCount := 1, killInvoked := some ("compiler_" ++ jobId),
            output := sentinelTimeoutOutput,
            error := some "context deadline exceeded" }

/-- Externally visible trace of one worker-loop iteration. -/
structure WorkerTrace where
  responseCount : Nat
  statsCount : Nat
  exec : Option ExecTrace
  deriving DecidableEq

/-- Shallow embedding of one iteration of `worker` (executor.go 69-93):
the worker races the concurrency-slot (`rateLimiter`) acquisition
against the per-job deadline.  `slotAcquired = true` models the slot
case: `executeCodeWithContext` runs and its result is published.
`slotAcquired = false` models the `ctx.Done()` case: a timeout error is
published WITHOUT running the job — note this branch sends no stats
record. -/
def worker (language : String) (jobId : String)
    (slotAcquired : Bool) (o : ExecOracle) : WorkerTrace :=
  if slotAcquired then
    let t := executeCodeWithContext language jobId o
    { responseCount := 1, statsCount := t.statsCount, exec := some t }
  else
    { responseCount := 1, statsCount := 0, exec := none }

/-! ## Submit path (`ExecuteInDocker`, executor.go 241-274) -/

/-- Capacity of `requestChan` (executor.go line 49:
`make(chan ExecutionRequest, 100)`). -/
def requestChanCapacity : Nat := 100

/-- Observable result of `ExecuteInDocker` at submit time, before any
worker has produced a completion: either the job is enqueued and the
caller is left waiting on the response channel (`pending`), or an error
is returned immediately.  `newQueueLen` is the queue length after the
call. -/
inductive SubmitResult
  | pending (newQueueLen : Nat)
  | errorMsg (msg : String) (newQueueLen : Nat)
  deriving DecidableEq

/-- The error message of a `SubmitResult`, if any. -/
def SubmitResult.msg? : SubmitResult → Option String
  | SubmitResult.pending _ => none
  | SubmitResult.errorMsg m _ => some m

/-- Shallow embedding of the submit phase of `ExecuteInDocker`
(executor.go 257-273).  The Go `select` with a `default` branch is
non-blocking: if any non-default case is ready it runs one of the ready
cases (chosen pseudo-randomly when several are ready — modelled by
`tiePickSend`), and the `default` (queue-full) branch runs only when no
case is ready.  The send case is ready iff the queue has room; the
`ctx.Done()` case is ready iff the caller's context is already
cancelled.  When the send case wins with a cancelled context, the job
is enqueued and the second `select` (executor.go 268-273) immediately
returns the cancelled error because `responseChan` is still empty. -/
def ExecuteInDocker (ctxCancelled : Bool) (queueLen : Nat)
    (tiePickSend : Bool) : SubmitResult :=
  let sendReady := queueLen < requestChanCapacity
  if ctxCancelled ∧ sendReady then
    if tiePickSend then
      SubmitResult.errorMsg "request cancelled: context canceled" (queueLen + 1)
    else
      SubmitResult.errorMsg "request cancelled: context canceled" queueLen
  else if ctxCancelled then
    SubmitResult.errorMsg "request cancelled: context canceled" queueLen
  else if sendReady then
    SubmitResult.pending (queueLen + 1)
  else
    SubmitResult.errorMsg "server is busy, please try again later" queueLen

/-! ## Batch runner (`ExecuteBatchInDocker` and `createBatchRunnerScript`) -/

/-- `models.TestInput`. -/
structure TestInput where
  id : String
  input : String
  deriving DecidableEq

/-- `models.BatchExecuteRequest`. -/
structure BatchExecuteRequest where
  code : String
  language : String
  testCases : List TestInput
  deriving DecidableEq

/-- Position-derived test-case name `tc_<i>` used by the generated
driver and by `SubmitHandler`. -/
def tcName (i : Nat) : String := "tc_" ++ toString i

/-- The compile block `createBatchRunnerScript` emits for compiled
languages.  Note the block redirects the fixed text
`"Compilation error"` — not the compiler's own output — into
`/code/compile_error.txt` and exits 1. -/
def compileBlock (language : String) : String :=
  match language with
  | "java" =>
      "javac /code/Main.java\nif [ $? -ne 0 ]; then\n  echo \"Compilation error\" > /code/compile_error.txt\n  exit 1\nfi\n"
  | "cpp" =>
      "g++ /code/main.cpp -o /code/a.out\nif [ $? -ne 0 ]; then\n  echo \"Compilation error\" > /code/compile_error.txt\n  exit 1\nfi\n"
  | "c" =>
      "gcc /code/main.c -o /code/a.out\nif [ $? -ne 0 ]; then\n  echo \"Compilation error\" > /code/compile_error.txt\n  exit 1\nfi\n"
  | _ => ""

/-- Per-language execution command inside `run_test_case`. -/
def runCmdFragment (language : String) : String :=
  match language with
  | "python" => "python3 /code/main.py"
  | "java" => "java -cp /code Main"
  | "cpp" => "/code/a.out"
  | "c" => "/code/a.out"
  | "javascript" => "node /code/main.js"
  | "go" => "go run /code/main.go"
  | _ => ""

/-- Fixed text of the driver script before the per-language run
command (the `run_test_case` definition up to the pipe). -/
def runTestCaseHeader : String :=
  "\nrun_test_case() \x7b\n    id=$1\n    echo \"Running test case $id\"\n    timeout 5s sh -c \"cat /code/testcases/$id.in | "

/-- Fixed text of the driver script after the per-language run command
(output redirection, exit-code handling, per-case timeout sentinel). -/
def runTestCaseFooter : String :=
  "\" > /code/testcases/$id.out 2>&1\n    exit_code=$?\n    if [ $exit_code -eq 124 ]; then\n        echo \"Execution timed out. Your code may contain an infinite loop.\" > /code/testcases/$id.out\n    elif [ $exit_code -ne 0 ]; then\n        echo \"Execution failed with exit code $exit_code\" >> /code/testcases/$id.out\n    fi\n\x7d\n\n"

/-- The trailing invocation lines `run_test_case tc_<i>` for
`i = 0 .. n-1`, in order. -/
def callLines (numTestCases : Nat) : String :=
  String.join ((List.range numTestCases).map
    (fun i => "run_test_case " ++ tcName i ++ "\n"))

/-- Shallow embedding of `createBatchRunnerScript(language, numTestCases)`:
the exact text the Go string builder produces.  It depends only on the
language and the COUNT of test cases; the caller-supplied test-case IDs
never appear in it. -/
def createBatchRunnerScript (language : String) (numTestCases : Nat) : String :=
  "#!/bin/sh\n\n" ++ compileBlock language ++ runTestCaseHeader ++
    runCmdFragment language ++ runTestCaseFooter ++ callLines numTestCases

/-- Contents of `/code/compile_error.txt` after a failed compile: the
driver's `echo "Compilation error" > /code/compile_error.txt` writes
this fixed line (a trailing newline added by `echo`), regardless of
what the compiler printed. -/
def scriptCompileErrContents : String := "Compilation error\n"

/-- Outcome of the batch container run, raced by
`exec.CommandContext`. `launchFailed`: the `docker run` invocation
itself failed before the script produced any file.  `compileFailed`:
the script's compile step failed — it wrote `compile_error.txt` and
exited 1; `compilerOutput` is what the compiler printed to the
combined output (which the script does NOT put into the file).
`completed`: the script ran all cases; `caseOutput i` is the content
the driver left in `testcases/tc_<i>.out`. -/
inductive BatchRun
  | launchFailed (output : String)
  | compileFailed (compilerOutput : String)
  | completed (caseOutput : Nat → String)

/-- Oracle fixing each fallible external step of
`ExecuteBatchInDocker`, in source order.  `statsMemKB` is the outcome
of the trailing `GetContainerStats` call (`none` = the probe errored);
`elapsedMs` is the measured wall-clock time. -/
structure BatchOracle where
  absPathOk : Bool
  mkdirOk : Bool
  writeCodeOk : Bool
  mkdirTestsOk : Bool
  writeTestsOk : Bool
  writeScriptOk : Bool
  run : BatchRun
  statsMemKB : Option Int
  elapsedMs : Int

/-- Externally visible trace of one `ExecuteBatchInDocker` call.
`inputFilesWritten`: names of the `<id>.in` files written under
`testcases/`; `scriptWritten`: content of `run_tests.sh` if written;
`outFilesProduced`: names of the `.out` files the driver produced;
`result`: the Go return value — error or the id-keyed result map (as
an association list in test-case order). -/
structure BatchTrace where
  wsCreated : Bool
  removeInvoked : Bool
  wsExistsAfter : Bool
  inputFilesWritten : List String
  scriptWritten : Option String
  outFilesProduced : List String
  result : Except String (List (String × String))

/-- `findTcIndex n id` finds the position `i < n` with `tc_<i> = id`,
i.e. whether the driver produced an output file named `<id>.out`. -/
def findTcIndex (n : Nat) (id : String) : Option Nat :=
  (List.range n).find? (fun i => tcName i == id)

/-- Stand-in for the OS error text inside the Go message
`"Failed to read output: %v"` when `<id>.out` does not exist. -/
def failedReadMsg : String :=
  "Failed to read output: file does not exist"

/-- The value harvested for one supplied test-case ID: the content of
`testcases/<id>.out` when the driver produced that file (it only ever
produces `tc_<i>.out` for `i < n`), else the read-failure message. -/
def harvestValue (n : Nat) (caseOut : Nat → String) (id : String) : String :=
  match findTcIndex n id with
  | some i => caseOut i
  | none => failedReadMsg

/-- The metric decoration `ExecuteBatchInDocker` appends to every
result value: nothing when the stats probe failed (the code returns
early, skipping BOTH lines), and otherwise the memory line followed by
the execution-time line. -/
def decorationSuffix (statsMemKB : Option Int) (elapsedMs : Int) : String :=
  match statsMemKB with
  | none => ""
  | some m =>
      "\nMemory Used: " ++ toString m ++ " KB" ++
      "\nExecution Time: " ++ toString elapsedMs ++ " ms"

/-- Shallow embedding of `ExecuteBatchInDocker` (batch runner source,
lines 37-164).  Source-order control flow: absolute path; `MkdirAll`
of `sandbox/<execID>` (BEFORE the language check); `defer RemoveAll`;
language lookup returning the `unsupported language` error on empty
filename; code-file write; `testcases/` dir; one `<id>.in` per
caller-supplied ID; driver script write; container run.  On a run
error the code checks for `compile_error.txt` and, if present, maps
EVERY ID to `"Compilation error: " + contents`; otherwise it returns
an execution-failed error.  On success it reads `<id>.out` for each
supplied ID (the driver only ever produced `tc_<i>.out`), then builds
a throwaway `ExecuteRequest` from `TestCases[0]` — a panic when the
list is empty — and appends the metric lines only when
`GetContainerStats` succeeds. -/
def ExecuteBatchInDocker (req : BatchExecuteRequest) (o : BatchOracle) :
    BatchTrace :=
  if o.absPathOk = false then
    { wsCreated := false, removeInvoked := false, wsExistsAfter := false,
      inputFilesWritten := [], scriptWritten := none, outFilesProduced := [],
      result := Except.error "failed to get absolute path" }
  else if o.mkdirOk = false then
    { wsCreated := false, removeInvoked := false, wsExistsAfter := false,
      inputFilesWritten := [], scriptWritten := none, outFilesProduced := [],
      result := Except.error "failed to create execution directory" }
  else
    let codeFile := (getLanguageSpec req.language).1
    if codeFile = "" then
      { wsCreated := true, removeInvoked := true, wsExistsAfter := false,
        inputFilesWritten := [], scriptWritten := none, outFilesProduced := [],
        result := Except.error ("unsupported language: " ++ req.language) }
    else if o.writeCodeOk = false then
      { wsCreated := true, removeInvoked := true, wsExistsAfter := false,
        inputFilesWritten := [], scriptWritten := none, outFilesProduced := [],
        result := Except.error "failed to write code file" }
    else if o.mkdirTestsOk = false then
      { wsCreated := true, removeInvoked := true, wsExistsAfter := false,
        inputFilesWritten := [], scriptWritten := none, outFilesProduced := [],
        result := Except.error "failed to create test cases directory" }
    else if o.writeTestsOk = false then
      { wsCreated := true, removeInvoked := true, wsExistsAfter := false,
        inputFilesWritten := [], scriptWritten := none, outFilesProduced := [],
        result := Except.error "failed to write test case file" }
    else
      let inputFiles := req.testCases.map (fun tc => tc.id ++ ".in")
      if o.writeScriptOk = false then
        { wsCreated := true, removeInvoked := true, wsExistsAfter := false,
          inputFilesWritten := inputFiles, scriptWritten := none,
          outFilesProduced := [],
          result := Except.error "failed to write runner script" }
      else
        let script := createBatchRunnerScript req.language req.testCases.length
        match o.run with
        | BatchRun.launchFailed out =>
            { wsCreated := true, removeInvoked := true, wsExistsAfter := false,
              inputFilesWritten := inputFiles, scriptWritten := some script,
              outFilesProduced := [],
              result := Except.error ("execution failed: " ++ out) }
        | BatchRun.compileFailed _compilerOut =>
            if isCompiledLang req.language then
              { wsCreated := true, removeInvoked := true, wsExistsAfter := false,
                inputFilesWritten := inputFiles, scriptWritten := some script,
                outFilesProduced := [],
                result := Except.ok (req.testCases.map (fun tc =>
                  (tc.id, "Compilation error: " ++ scriptCompileErrContents))) }
            else
              { wsCreated := true, removeInvoked := true, wsExistsAfter := false,
                inputFilesWritten := inputFiles, scriptWritten := some script,
                outFilesProduced := [],
                result := Except.error "execution failed: script error" }
        | BatchRun.completed caseOut =>
            let n := req.testCases.length
            let outs := (List.range n).map (fun i => tcName i ++ ".out")
            if req.testCases = [] then
              { wsCreated := true, removeInvoked := true, wsExistsAfter := false,
                inputFilesWritten := inputFiles, scriptWritten := some script,
                outFilesProduced := outs,
                result := Except.error "panic: runtime error: index out of range" }
            else
              let decorated := req.testCases.map (fun tc =>
                (tc.id, harvestValue n caseOut tc.id ++
                  decorationSuffix o.statsMemKB o.elapsedMs))
              { wsCreated := true, removeInvoked := true, wsExistsAfter := false,
                inputFilesWritten := inputFiles, scriptWritten := some script,
                outFilesProduced := outs,
                result := Except.ok decorated }

/-! ## Submit handler per-case comparison (`SubmitHandler`, handlers) -/

/-- `TestCaseResult` from the handlers package. -/
structure TestCaseResult where
  input : String
  expectedOutput : String
  actualOutput : String
  passed : Bool
  deriving DecidableEq

/-- Shallow embedding of the per-test-case block of `SubmitHandler`
(handlers source, lines 197-225): if the actual output contains the
substring `"execution timed out"` it is replaced with the handler's
sentinel and the case fails; otherwise both strings are normalised
with `strings.TrimSpace` (which trims leading AND trailing
whitespace) followed by `strings.TrimRight(_, "\n\r")`, and the case
passes exactly when the normalised strings are equal. -/
def processTestCase (input expected actual : String) : TestCaseResult :=
  if goContains actual "execution timed out" then
    { input := input, expectedOutput := expected,
      actualOutput := "Execution timed out. Your code may contain an infinite loop.",
      passed := false }
  else
    let normalizedExpected := goTrimRightSet (goTrimSpace expected) ['\n', '\r']
    let normalizedActual := goTrimRightSet (goTrimSpace actual) ['\n', '\r']
    { input := input, expectedOutput := expected, actualOutput := actual,
      passed := normalizedActual == normalizedExpected }

/-! ## Configuration (`models.LoadConfig`) and engine constants -/

/-- `os.Getenv` over an explicit environment (unset keys read as ""). -/
def goGetenv (env : List (String × String)) (key : String) : String :=
  match env.lookup key with
  | some v => v
  | none => ""

/-- Value of a non-empty all-digit character list, else `none`. -/
def digitsVal (l : List Char) : Option Nat :=
  if l ≠ [] ∧ l.all (fun c => c.isDigit) then
    some (l.foldl (fun acc c => acc * 10 + (c.toNat - 48)) 0)
  else
    none

/-- Go `strconv.Atoi`: an optional sign followed by one or more
digits (overflow behaviour is irrelevant at the sizes considered). -/
def goAtoi (s : String) : Option Int :=
  match s.toList with
  | '-' :: rest => (digitsVal rest).map (fun n => -(n : Int))
  | '+' :: rest => (digitsVal rest).map (fun n => (n : Int))
  | l => (digitsVal l).map (fun n => (n : Int))

/-- `getIntEnv` from the models package: parse the variable if set and
parseable, else the default. -/
def getIntEnv (env : List (String × String)) (key : String)
    (defaultVal : Int) : Int :=
  let val := goGetenv env key
  if val ≠ "" then
    match goAtoi val with
    | some n => n
    | none => defaultVal
  else
    defaultVal

/-- The configuration fields relevant here (`models.Config`; the
duration-valued fields are omitted as no claim concerns them). -/
structure Config where
  port : String
  rateLimit : Int
  maxWorkers : Int
  maxQueueSize : Int
  deriving DecidableEq

/-- `LoadConfig` from the models package, restricted to the modelled
fields. -/
def LoadConfig (env : List (String × String)) : Config :=
  let port := if goGetenv env "PORT" = "" then ":8001" else goGetenv env "PORT"
  { port := port,
    rateLimit := getIntEnv env "RATE_LIMIT" 100,
    maxWorkers := getIntEnv env "MAX_WORKERS" 10,
    maxQueueSize := getIntEnv env "MAX_QUEUE_SIZE" 100 }

/-- `workerCount` (executor.go line 50): a package-level constant 10,
not read from configuration. -/
def workerCount : Nat := 10

/-- Number of workers the runner's `init()` starts: it loops
`workerCount` times over the package-level constant; the environment
never reaches it. -/
def enginePoolSize (_env : List (String × String)) : Nat := workerCount

/-- Capacity of the engine's request queue as a function of the
environment: `requestChan` is created with the literal capacity 100 in
the package-level `var` block; the environment never reaches it. -/
def engineQueueCapacity (_env : List (String × String)) : Nat :=
  requestChanCapacity

/-! ## Shared invariant lemmas -/

/-- Every path through `executeCodeWithContext` leaves no workspace
behind, invokes the deferred removal whenever the directory was
created, and emits exactly one stats record. -/
theorem exec_invariants (language jobId : String) (o : ExecOracle) :
    (executeCodeWithContext language jobId o).wsExistsAfter = false ∧
    ((executeCodeWithContext language jobId o).wsCreated &&
      !(executeCodeWithContext language jobId o).removeInvoked) = false ∧
    (executeCodeWithContext language jobId o).statsCount = 1 := by
  by_cases hc : (getLanguageSpec language).1 = "" <;>
  rcases o with ⟨(_|_), (_|_), (_|_), (_|_), (⟨(_|_), out⟩ | _)⟩ <;>
  simp [executeCodeWithContext, hc]

/-- Every path through `ExecuteBatchInDocker` leaves no workspace
behind and invokes the deferred removal whenever the directory was
created. -/
theorem batch_invariants (req : BatchExecuteRequest) (o : BatchOracle) :
    (ExecuteBatchInDocker req o).wsExistsAfter = false ∧
    ((ExecuteBatchInDocker req o).wsCreated &&
      !(ExecuteBatchInDocker req o).removeInvoked) = false := by
  by_cases hc : (getLanguageSpec req.language).1 = "" <;>
  by_cases hl : isCompiledLang req.language = true <;>
  by_cases he : req.testCases = [] <;>
  rcases o with ⟨(_|_), (_|_), (_|_), (_|_), (_|_), (_|_), (r | r | r), sm, em⟩ <;>
  simp [ExecuteBatchInDocker, hc, hl, he]

/-- Claim C1: for every job that is executed (single-input or batch),
the per-job workspace directory `sandbox/<jobId>` is recursively
removed before the job's result is returned, on every exit path, so
the directory does not exist after the job ends regardless of outcome;
the deferred removal runs whenever the directory was created. -/
theorem c1_workspace_removed_on_every_exit (language jobId : String)
    (o : ExecOracle) (req : BatchExecuteRequest) (ob : BatchOracle) :
    (executeCodeWithContext language jobId o).wsExistsAfter = false ∧
    ((executeCodeWithContext language jobId o).wsCreated &&
      !(executeCodeWithContext language jobId o).removeInvoked) = false ∧
    (ExecuteBatchInDocker req ob).wsExistsAfter = false ∧
    ((ExecuteBatchInDocker req ob).wsCreated &&
      !(ExecuteBatchInDocker req ob).removeInvoked) = false :=
  ⟨(exec_invariants language jobId o).1, (exec_invariants language jobId o).2.1,
   (batch_invariants req ob).1, (batch_invariants req ob).2⟩

/-- Claim C3: in the single-input launcher, whenever the per-job
context deadline expires before the container run completes, the
launcher invokes `docker kill` on the container name derived from the
job id and returns exactly the sentinel output together with a timeout
error. -/
theorem c3_timeout_kills_and_returns_sentinel (language jobId : String)
    (o : ExecOracle) (hd : o.dockerAvailable = true) (ha : o.absPathOk = true)
    (hm : o.mkdirOk = true) (hw : o.writeOk = true)
    (hl : (getLanguageSpec language).1 ≠ "")
    (hr : o.run = RunOutcome.timedOut) :
    (executeCodeWithContext language jobId o).killInvoked =
      some ("compiler_" ++ jobId) ∧
    (executeCodeWithContext language jobId o).output =
      "Execution timed out. Your code may contain an infinite loop or is taking too long to execute." ∧
    (executeCodeWithContext language jobId o).error =
      some "context deadline exceeded" := by
  simp [executeCodeWithContext, hd, ha, hm, hw, hl, hr, sentinelTimeoutOutput]

/-- Witness for C3 at a concrete python request. -/
theorem c3_timeout_kills_and_returns_sentinel_witness :
    (executeCodeWithContext "python" "42"
      ⟨true, true, true, true, RunOutcome.timedOut⟩).killInvoked =
      some ("compiler_" ++ "42") ∧
    (executeCodeWithContext "python" "42"
      ⟨true, true, true, true, RunOutcome.timedOut⟩).output =
      "Execution timed out. Your code may contain an infinite loop or is taking too long to execute." ∧
    (executeCodeWithContext "python" "42"
      ⟨true, true, true, true, RunOutcome.timedOut⟩).error =
      some "context deadline exceeded" :=
  c3_timeout_kills_and_returns_sentinel "python" "42" _ rfl rfl rfl rfl
    (by decide) rfl

/-- Counterexample to claim C8: when the worker's per-job deadline
fires before a concurrency slot is acquired, the worker publishes a
response but emits NO `ExecutionStats` record (executor.go 85-90 sends
only to `req.Response`), so "exactly one record per admitted job" fails
on that path. -/
theorem c8_counterexample :
    (worker "python" "1" false
      ⟨true, true, true, true, RunOutcome.completed true "ok"⟩).statsCount ≠ 1 ∧
    (worker "python" "1" false
      ⟨true, true, true, true, RunOutcome.completed true "ok"⟩).responseCount = 1 := by
  decide

/-- Claim C8 as amended: every path through `executeCodeWithContext`
emits exactly one stats record, and so does a worker iteration that
acquires a slot; but a worker iteration whose deadline fires before a
slot is acquired emits none (it only publishes the error response). -/
theorem c8_amended_stats_emission (language jobId : String) (o : ExecOracle) :
    (executeCodeWithContext language jobId o).statsCount = 1 ∧
    (worker language jobId true o).statsCount = 1 ∧
    (worker language jobId false o).statsCount = 0 ∧
    (worker language jobId false o).responseCount = 1 :=
  ⟨(exec_invariants language jobId o).2.2,
   (exec_invariants language jobId o).2.2, rfl, rfl⟩

/-- Counterexample to claim C2: when the request queue is at its
capacity of 100 AND the caller's context is already cancelled, the Go
`select` runs the ready `ctx.Done()` case rather than the `default`
branch, so submit returns the cancelled error, not the queue-full
error the claim promises for a full queue. -/
theorem c2_counterexample :
    (ExecuteInDocker true 100 false).msg? =
      some "request cancelled: context canceled" ∧
    (ExecuteInDocker true 100 false).msg? ≠
      some "server is busy, please try again later" := by
  decide

/-- Claim C2 as amended: the enqueue is non-blocking — when the queue
is at its capacity of 100 and the caller's context is NOT cancelled,
submit returns the queue-full error immediately with the queue
unchanged; and whenever the caller's context is already cancelled,
submit returns the cancelled error (cancellation takes priority over
the queue-full branch, and the job may still have been enqueued when
the tie-break picked the send case). -/
theorem c2_amended_nonblocking_enqueue (queueLen : Nat) (tie : Bool) :
    ExecuteInDocker false 100 tie =
      SubmitResult.errorMsg "server is busy, please try again later" 100 ∧
    (ExecuteInDocker true queueLen tie).msg? =
      some "request cancelled: context canceled" := by
  constructor
  · cases tie <;> decide
  · by_cases hq : queueLen < requestChanCapacity <;> cases tie <;>
      simp [ExecuteInDocker, SubmitResult.msg?, hq]

/-- Counterexample to claim C9: with `MAX_WORKERS=3` and
`MAX_QUEUE_SIZE=7` in the environment, `LoadConfig` duly parses 3 and
7 into the config record, yet the dispatch engine still starts 10
workers and keeps a queue of capacity 100 — the runner's `init()` uses
the hard-coded package constants and never reads the config. -/
theorem c9_counterexample :
    (LoadConfig [("MAX_WORKERS", "3"), ("MAX_QUEUE_SIZE", "7")]).maxWorkers = 3 ∧
    (LoadConfig [("MAX_WORKERS", "3"), ("MAX_QUEUE_SIZE", "7")]).maxQueueSize = 7 ∧
    enginePoolSize [("MAX_WORKERS", "3"), ("MAX_QUEUE_SIZE", "7")] = 10 ∧
    enginePoolSize [("MAX_WORKERS", "3"), ("MAX_QUEUE_SIZE", "7")] ≠ 3 ∧
    engineQueueCapacity [("MAX_WORKERS", "3"), ("MAX_QUEUE_SIZE", "7")] = 100 ∧
    engineQueueCapacity [("MAX_WORKERS", "3"), ("MAX_QUEUE_SIZE", "7")] ≠ 7 := by
  refine ⟨?_, ?_, rfl, ?_, rfl, ?_⟩ <;> decide

/-- Claim C9 as amended: the worker-pool size is the hard-coded
constant 10 and the request-queue capacity the hard-coded 100 for
every environment; `LoadConfig` parses `MAX_WORKERS` and
`MAX_QUEUE_SIZE` (with defaults 10 and 100, coinciding with the
constants), but the dispatch engine never consumes those fields, so
setting the environment variables does not change the number of
workers started or the queue's capacity. -/
theorem c9_amended_engine_sizes_hardcoded (env : List (String × String)) :
    enginePoolSize env = 10 ∧
    engineQueueCapacity env = 100 ∧
    (LoadConfig env).maxWorkers = getIntEnv env "MAX_WORKERS" 10 ∧
    (LoadConfig env).maxQueueSize = getIntEnv env "MAX_QUEUE_SIZE" 100 ∧
    (LoadConfig []).maxWorkers = 10 ∧
    (LoadConfig []).maxQueueSize = 100 :=
  ⟨rfl, rfl, rfl, rfl, rfl, rfl⟩

/-- Dropping with a weaker predicate after dropping with a stronger
one changes nothing: the first remaining element already fails the
stronger predicate, hence the weaker one. -/
theorem dropWhile_dropWhile_of_imp (p q : Char → Bool)
    (h : ∀ c, p c = true → q c = true) (l : List Char) :
    List.dropWhile p (List.dropWhile q l) = List.dropWhile q l := by
  induction l with
  | nil => rfl
  | cons a l ih =>
    by_cases hq : q a = true
    · simp [List.dropWhile_cons, hq, ih]
    · have hp : p a = false := by
        cases hpa : p a
        · rfl
        · exact absurd (h a hpa) hq
      simp [List.dropWhile_cons, hq, hp]

/-- `strings.TrimRight` with a cutset of whitespace characters is a
no-op after `strings.TrimSpace`: the trimmed string ends (if at all)
in a non-whitespace character. -/
theorem goTrimRightSet_goTrimSpace (s : String) (cutset : List Char)
    (h : ∀ c, cutset.contains c = true → goIsSpace c = true) :
    goTrimRightSet (goTrimSpace s) cutset = goTrimSpace s := by
  unfold goTrimRightSet goTrimSpace trimRightList trimLeftList
  simp only [String.toList, List.reverse_reverse]
  rw [dropWhile_dropWhile_of_imp (fun c => cutset.contains c) goIsSpace h]

/-- Counterexample to claim C4: the submit comparison uses
`strings.TrimSpace`, which trims LEADING whitespace as well, so actual
`" 42"` DOES match expected `"42"` (`passed = true`), contradicting the
claim's `passed = false`; and the biconditional also fails when the
actual output contains the substring `"execution timed out"`, where the
case is marked failed even though the trimmed strings are equal. -/
theorem c4_counterexample :
    (processTestCase "" "42" " 42").passed = true ∧
    (processTestCase "" "execution timed out" "execution timed out").passed
      = false := by
  decide

/-- Claim C4 as amended: for a test case whose actual output does not
contain the substring `"execution timed out"`, the case is marked
passed exactly when expected and actual are byte-equal after trimming
surrounding whitespace from BOTH ends (leading whitespace included);
in particular expected `"42"` matches actual `"42\n"` and also matches
actual `" 42"`.  A case whose actual output contains that substring is
always marked failed. -/
theorem c4_amended_trim_comparison (input expected actual : String)
    (h : goContains actual "execution timed out" = false) :
    ((processTestCase input expected actual).passed =
      (goTrimSpace actual == goTrimSpace expected)) ∧
    (processTestCase "" "42" "42\n").passed = true ∧
    (processTestCase "" "42" " 42").passed = true ∧
    (∀ a, goContains a "execution timed out" = true →
      (processTestCase input expected a).passed = false) := by
  have hcut : ∀ c, (['\n', '\r'] : List Char).contains c = true →
      goIsSpace c = true := by
    intro c hc
    simp only [List.contains_cons, List.contains_nil, Bool.or_eq_true,
      Bool.or_false, beq_iff_eq] at hc
    rcases hc with hc | hc <;> subst hc <;> decide
  refine ⟨?_, by decide, by decide, ?_⟩
  · simp [processTestCase, h, goTrimRightSet_goTrimSpace _ _ hcut]
  · intro a ha
    simp [processTestCase, ha]

/-- Witness for the amended C4 at the claim's own example. -/
theorem c4_amended_trim_comparison_witness :
    ((processTestCase "" "42" "42\n").passed =
      (goTrimSpace "42\n" == goTrimSpace "42")) ∧
    (processTestCase "" "42" "42\n").passed = true ∧
    (processTestCase "" "42" " 42").passed = true ∧
    (∀ a, goContains a "execution timed out" = true →
      (processTestCase "" "42" a).passed = false) :=
  c4_amended_trim_comparison "" "42" "42\n" (by decide)

/-- An all-success oracle for the single-input path whose run
completes normally. -/
def okExecOracle : ExecOracle :=
  ⟨true, true, true, true, RunOutcome.completed true ""⟩

/-- An all-success oracle for the batch path whose run completes
normally with empty outputs and a failed stats probe. -/
def okBatchOracle : BatchOracle :=
  ⟨true, true, true, true, true, true,
    BatchRun.completed (fun _ => ""), none, 0⟩

/-- Counterexample to claim C5: for the unsupported language tag
`"ruby"`, BOTH paths create the workspace directory before the
language lookup — `MkdirAll` precedes `getLanguageSpec` in
`executeCodeWithContext` (lines 157 vs 170) and in
`ExecuteBatchInDocker` (lines 52 vs 60) — so a `sandbox/<jobId>`
directory IS created for such a request. -/
theorem c5_counterexample :
    (executeCodeWithContext "ruby" "1" okExecOracle).wsCreated = true ∧
    (ExecuteBatchInDocker ⟨"puts 1", "ruby", [⟨"a", "1"⟩]⟩
      okBatchOracle).wsCreated = true :=
  ⟨rfl, rfl⟩

/-- Claim C5 as amended: for an unsupported language the workspace
directory IS created first; the failure is surfaced afterwards — in
the batch path as the `unsupported language` error, in the
single-input path as a code-file write failure (the empty filename
makes `os.WriteFile` target the directory itself) — and the deferred
cleanup removes the directory before the error returns, so no
directory persists. -/
theorem c5_amended_workspace_created_before_language_check
    (language jobId : String) (o : ExecOracle) (req : BatchExecuteRequest)
    (ob : BatchOracle) (hlang : (getLanguageSpec language).1 = "")
    (hlang2 : (getLanguageSpec req.language).1 = "")
    (hd : o.dockerAvailable = true) (ha : o.absPathOk = true)
    (hm : o.mkdirOk = true) (hba : ob.absPathOk = true)
    (hbm : ob.mkdirOk = true) :
    (executeCodeWithContext language jobId o).wsCreated = true ∧
    (executeCodeWithContext language jobId o).error =
      some "failed to write code file" ∧
    (executeCodeWithContext language jobId o).wsExistsAfter = false ∧
    (ExecuteBatchInDocker req ob).wsCreated = true ∧
    (ExecuteBatchInDocker req ob).result =
      Except.error ("unsupported language: " ++ req.language) ∧
    (ExecuteBatchInDocker req ob).wsExistsAfter = false := by
  refine ⟨?_, ?_, ?_, ?_, ?_, ?_⟩ <;>
    simp [executeCodeWithContext, ExecuteBatchInDocker,
      hd, ha, hm, hba, hbm, hlang, hlang2]

/-- Witness for the amended C5 at the concrete unsupported tag
`"ruby"`. -/
theorem c5_amended_workspace_created_before_language_check_witness :
    (executeCodeWithContext "ruby" "1" okExecOracle).wsCreated = true ∧
    (executeCodeWithContext "ruby" "1" okExecOracle).error =
      some "failed to write code file" ∧
    (executeCodeWithContext "ruby" "1" okExecOracle).wsExistsAfter = false ∧
    (ExecuteBatchInDocker ⟨"puts 1", "ruby", [⟨"a", "1"⟩]⟩
      okBatchOracle).wsCreated = true ∧
    (ExecuteBatchInDocker ⟨"puts 1", "ruby", [⟨"a", "1"⟩]⟩
      okBatchOracle).result =
      Except.error ("unsupported language: " ++
        (⟨"puts 1", "ruby", [⟨"a", "1"⟩]⟩ : BatchExecuteRequest).language) ∧
    (ExecuteBatchInDocker ⟨"puts 1", "ruby", [⟨"a", "1"⟩]⟩
      okBatchOracle).wsExistsAfter = false :=
  c5_amended_workspace_created_before_language_check "ruby" "1" okExecOracle
    ⟨"puts 1", "ruby", [⟨"a", "1"⟩]⟩ okBatchOracle rfl rfl rfl rfl rfl rfl rfl

/-- Counterexample to claim C6: on a C++ compile failure the driver
puts the fixed text `"Compilation error"` into `compile_error.txt` —
NOT the compiler's output — so harvesting assigns every test case
`"Compilation error: Compilation error\n"`, which differs from
`"Compilation error: " +` the compiler's actual message. -/
theorem c6_counterexample :
    (ExecuteBatchInDocker ⟨"int main() \x7b", "cpp", [⟨"tc_0", ""⟩]⟩
      ⟨true, true, true, true, true, true,
        BatchRun.compileFailed "main.cpp:1:1: error: expected expression",
        none, 0⟩).result =
      Except.ok [("tc_0", "Compilation error: Compilation error\n")] ∧
    "Compilation error: Compilation error\n" ≠
      "Compilation error: " ++ "main.cpp:1:1: error: expected expression" := by
  refine ⟨rfl, ?_⟩
  decide

/-- Claim C6 as amended: for a compiled language whose compilation
fails, the generated driver writes the FIXED line
`"Compilation error"` (not the compiler's output) to
`compile_error.txt` and exits non-zero, and result harvesting assigns
every test-case ID `"Compilation error: "` followed by the contents of
that file, i.e. `"Compilation error: Compilation error\n"`. -/
theorem c6_amended_compile_failure_replication (req : BatchExecuteRequest)
    (o : BatchOracle) (compilerOut : String)
    (hl : isCompiledLang req.language = true)
    (ha : o.absPathOk = true) (hm : o.mkdirOk = true)
    (hwc : o.writeCodeOk = true) (hmt : o.mkdirTestsOk = true)
    (hwt : o.writeTestsOk = true) (hws : o.writeScriptOk = true)
    (hr : o.run = BatchRun.compileFailed compilerOut) :
    (ExecuteBatchInDocker req o).result =
      Except.ok (req.testCases.map (fun tc =>
        (tc.id, "Compilation error: " ++ scriptCompileErrContents))) ∧
    scriptCompileErrContents = "Compilation error\n" ∧
    goContains (compileBlock req.language)
      "echo \"Compilation error\" > /code/compile_error.txt" = true ∧
    goContains (compileBlock req.language) "exit 1" = true := by
  have hl2 : req.language = "java" ∨ req.language = "cpp" ∨
      req.language = "c" := by
    unfold isCompiledLang at hl
    simp only [Bool.or_eq_true, beq_iff_eq] at hl
    tauto
  refine ⟨?_, rfl, ?_, ?_⟩
  · rcases hl2 with h | h | h <;>
      simp [ExecuteBatchInDocker, h, ha, hm, hwc, hmt, hwt, hws, hr,
        getLanguageSpec, isCompiledLang]
  · rcases hl2 with h | h | h <;> rw [h] <;> decide
  · rcases hl2 with h | h | h <;> rw [h] <;> decide

/-- Witness for the amended C6 at a concrete failing C++ batch. -/
theorem c6_amended_compile_failure_replication_witness :
    (ExecuteBatchInDocker ⟨"int main() \x7b", "cpp", [⟨"tc_0", ""⟩]⟩
      ⟨true, true, true, true, true, true,
        BatchRun.compileFailed "main.cpp:1:1: error: expected expression",
        none, 0⟩).result =
      Except.ok ((⟨"int main() \x7b", "cpp", [⟨"tc_0", ""⟩]⟩ :
          BatchExecuteRequest).testCases.map (fun tc =>
        (tc.id, "Compilation error: " ++ scriptCompileErrContents))) ∧
    scriptCompileErrContents = "Compilation error\n" ∧
    goContains (compileBlock (⟨"int main() \x7b", "cpp", [⟨"tc_0", ""⟩]⟩ :
        BatchExecuteRequest).language)
      "echo \"Compilation error\" > /code/compile_error.txt" = true ∧
    goContains (compileBlock (⟨"int main() \x7b", "cpp", [⟨"tc_0", ""⟩]⟩ :
        BatchExecuteRequest).language) "exit 1" = true :=
  c6_amended_compile_failure_replication
    ⟨"int main() \x7b", "cpp", [⟨"tc_0", ""⟩]⟩
    ⟨true, true, true, true, true, true,
      BatchRun.compileFailed "main.cpp:1:1: error: expected expression",
      none, 0⟩
    "main.cpp:1:1: error: expected expression"
    rfl rfl rfl rfl rfl rfl rfl rfl

/-- Counterexample to claim C7: a python batch that runs to completion
without a compile failure, but whose trailing `GetContainerStats` probe
errors (the common case — the probe queries a freshly timestamped
container name that never existed): the code returns the results early
and appends NEITHER the `Memory Used` line NOR the `Execution Time`
line. -/
theorem c7_counterexample :
    (ExecuteBatchInDocker ⟨"print(1)", "python", [⟨"tc_0", ""⟩]⟩
      ⟨true, true, true, true, true, true,
        BatchRun.completed (fun _ => "1\n"), none, 5⟩).result =
      Except.ok [("tc_0", "1\n")] ∧
    goContains "1\n" "Memory Used:" = false ∧
    goContains "1\n" "Execution Time:" = false := by
  refine ⟨rfl, ?_, ?_⟩ <;> decide

/-- Claim C7 as amended: for a batch job that runs to completion
without a compile failure, the `Memory Used: <N> KB` and
`Execution Time: <M> ms` lines are appended to every case's output
only when the `GetContainerStats` probe succeeds; when the probe
errors the results are returned with neither line appended. -/
theorem c7_amended_metric_decoration (req : BatchExecuteRequest)
    (o : BatchOracle) (caseOut : Nat → String) (m : Int)
    (ha : o.absPathOk = true) (hm : o.mkdirOk = true)
    (hwc : o.writeCodeOk = true) (hmt : o.mkdirTestsOk = true)
    (hwt : o.writeTestsOk = true) (hws : o.writeScriptOk = true)
    (hr : o.run = BatchRun.completed caseOut)
    (hne : req.testCases ≠ [])
    (hlang : (getLanguageSpec req.language).1 ≠ "") :
    (o.statsMemKB = some m →
      (ExecuteBatchInDocker req o).result =
        Except.ok (req.testCases.map (fun tc =>
          (tc.id, harvestValue req.testCases.length caseOut tc.id ++
            decorationSuffix (some m) o.elapsedMs)))) ∧
    (o.statsMemKB = none →
      (ExecuteBatchInDocker req o).result =
        Except.ok (req.testCases.map (fun tc =>
          (tc.id, harvestValue req.testCases.length caseOut tc.id)))) ∧
    decorationSuffix (some m) o.elapsedMs =
      "\nMemory Used: " ++ toString m ++ " KB" ++
      "\nExecution Time: " ++ toString o.elapsedMs ++ " ms" ∧
    decorationSuffix none o.elapsedMs = "" := by
  refine ⟨?_, ?_, rfl, rfl⟩
  · intro hs
    simp [ExecuteBatchInDocker, ha, hm, hwc, hmt, hwt, hws, hr, hne,
      hlang, hs]
  · intro hs
    simp [ExecuteBatchInDocker, ha, hm, hwc, hmt, hwt, hws, hr, hne,
      hlang, hs, decorationSuffix]

/-- A concrete single-case python batch request. -/
def c7req : BatchExecuteRequest := ⟨"print(1)", "python", [⟨"tc_0", ""⟩]⟩

/-- A concrete all-success batch oracle whose stats probe succeeds
with 2048 KB. -/
def c7oracle : BatchOracle :=
  ⟨true, true, true, true, true, true,
    BatchRun.completed (fun _ => "1\n"), some 2048, 5⟩

/-- Witness for the amended C7 at a concrete python batch whose stats
probe succeeds. -/
theorem c7_amended_metric_decoration_witness :
    (c7oracle.statsMemKB = some 2048 →
      (ExecuteBatchInDocker c7req c7oracle).result =
        Except.ok (c7req.testCases.map (fun tc =>
          (tc.id, harvestValue c7req.testCases.length (fun _ => "1\n") tc.id ++
            decorationSuffix (some 2048) c7oracle.elapsedMs)))) ∧
    (c7oracle.statsMemKB = none →
      (ExecuteBatchInDocker c7req c7oracle).result =
        Except.ok (c7req.testCases.map (fun tc =>
          (tc.id, harvestValue c7req.testCases.length (fun _ => "1\n") tc.id)))) ∧
    decorationSuffix (some 2048) c7oracle.elapsedMs =
      "\nMemory Used: " ++ toString (2048 : Int) ++ " KB" ++
      "\nExecution Time: " ++ toString c7oracle.elapsedMs ++ " ms" ∧
    decorationSuffix none c7oracle.elapsedMs = "" :=
  c7_amended_metric_decoration c7req c7oracle (fun _ => "1\n") 2048
    rfl rfl rfl rfl rfl rfl rfl (by decide) (by decide)

/-- Counterexample to claim C10: a batch whose IDs are
`["tc_1", "tc_0"]` — not equal to `tc_0 … tc_{n-1}` in order — still
finds an `<id>.out` file for every supplied ID (the driver produced
`tc_0.out` and `tc_1.out`), so the result map holds the driver's
outputs (cross-wired by position) rather than the
`"Failed to read output"` messages the claim predicts; and
`<id>.out` files for the supplied IDs ARE produced. -/
theorem c10_counterexample :
    (ExecuteBatchInDocker ⟨"print(1)", "python", [⟨"tc_1", "a"⟩, ⟨"tc_0", "b"⟩]⟩
      ⟨true, true, true, true, true, true,
        BatchRun.completed (fun i => "out" ++ toString i), none, 0⟩).result =
      Except.ok [("tc_1", "out1"), ("tc_0", "out0")] ∧
    (ExecuteBatchInDocker ⟨"print(1)", "python", [⟨"tc_1", "a"⟩, ⟨"tc_0", "b"⟩]⟩
      ⟨true, true, true, true, true, true,
        BatchRun.completed (fun i => "out" ++ toString i), none, 0⟩).outFilesProduced =
      ["tc_0.out", "tc_1.out"] ∧
    goHasPrefix "out1" "Failed to read output" = false := by
  refine ⟨rfl, rfl, ?_⟩
  decide

/-- Claim C10 as amended: the driver script depends only on the
language and the test-case count, invoking `run_test_case` with the
position-derived names `tc_0 … tc_{n-1}` while input files are written
under the caller-supplied IDs; consequently, for a batch request NONE
of whose test-case IDs is among `tc_0 … tc_{n-1}`, no supplied ID has
an `.out` file and every entry of the result map is a
`"Failed to read output"` message (plus the metric suffix when the
stats probe succeeds). -/
theorem c10_amended_driver_uses_positional_ids (req : BatchExecuteRequest)
    (o : BatchOracle) (caseOut : Nat → String)
    (ha : o.absPathOk = true) (hm : o.mkdirOk = true)
    (hwc : o.writeCodeOk = true) (hmt : o.mkdirTestsOk = true)
    (hwt : o.writeTestsOk = true) (hws : o.writeScriptOk = true)
    (hr : o.run = BatchRun.completed caseOut)
    (hne : req.testCases ≠ [])
    (hlang : (getLanguageSpec req.language).1 ≠ "")
    (hids : ∀ tc ∈ req.testCases,
      findTcIndex req.testCases.length tc.id = none) :
    (ExecuteBatchInDocker req o).scriptWritten =
      some (createBatchRunnerScript req.language req.testCases.length) ∧
    createBatchRunnerScript req.language req.testCases.length =
      "#!/bin/sh\n\n" ++ compileBlock req.language ++ runTestCaseHeader ++
        runCmdFragment req.language ++ runTestCaseFooter ++
        callLines req.testCases.length ∧
    (ExecuteBatchInDocker req o).inputFilesWritten =
      req.testCases.map (fun tc => tc.id ++ ".in") ∧
    (ExecuteBatchInDocker req o).outFilesProduced =
      (List.range req.testCases.length).map (fun i => tcName i ++ ".out") ∧
    (ExecuteBatchInDocker req o).result =
      Except.ok (req.testCases.map (fun tc =>
        (tc.id, failedReadMsg ++ decorationSuffix o.statsMemKB o.elapsedMs))) := by
  have hmap : req.testCases.map (fun tc =>
      (tc.id, harvestValue req.testCases.length caseOut tc.id ++
        decorationSuffix o.statsMemKB o.elapsedMs)) =
      req.testCases.map (fun tc =>
      (tc.id, failedReadMsg ++ decorationSuffix o.statsMemKB o.elapsedMs)) := by
    apply List.map_congr_left
    intro tc htc
    simp [harvestValue, hids tc htc]
  refine ⟨?_, rfl, ?_, ?_, ?_⟩ <;>
    simp [ExecuteBatchInDocker, ha, hm, hwc, hmt, hwt, hws, hr, hne,
      hlang, hmap]

/-- A concrete two-case python batch request with caller-chosen IDs
disjoint from the positional names. -/
def c10req : BatchExecuteRequest :=
  ⟨"print(1)", "python", [⟨"a", "1"⟩, ⟨"b", "2"⟩]⟩

/-- A concrete all-success batch oracle for the C10 witness. -/
def c10oracle : BatchOracle :=
  ⟨true, true, true, true, true, true,
    BatchRun.completed (fun i => "out" ++ toString i), none, 0⟩

/-- Witness for the amended C10 at a concrete batch with IDs
`["a", "b"]`. -/
theorem c10_amended_driver_uses_positional_ids_witness :
    (ExecuteBatchInDocker c10req c10oracle).scriptWritten =
      some (createBatchRunnerScript c10req.language c10req.testCases.length) ∧
    createBatchRunnerScript c10req.language c10req.testCases.length =
      "#!/bin/sh\n\n" ++ compileBlock c10req.language ++ runTestCaseHeader ++
        runCmdFragment c10req.language ++ runTestCaseFooter ++
        callLines c10req.testCases.length ∧
    (ExecuteBatchInDocker c10req c10oracle).inputFilesWritten =
      c10req.testCases.map (fun tc => tc.id ++ ".in") ∧
    (ExecuteBatchInDocker c10req c10oracle).outFilesProduced =
      (List.range c10req.testCases.length).map (fun i => tcName i ++ ".out") ∧
    (ExecuteBatchInDocker c10req c10oracle).result =
      Except.ok (c10req.testCases.map (fun tc =>
        (tc.id, failedReadMsg ++
          decorationSuffix c10oracle.statsMemKB c10oracle.elapsedMs))) :=
  c10_amended_driver_uses_positional_ids c10req c10oracle
    (fun i => "out" ++ toString i) rfl rfl rfl rfl rfl rfl rfl
    (by decide) (by decide) (by decide)

end CompilerBackend
